import Mathlib

/-!
# Verification of the scorecard data-derivation and layout pipeline

Shallow embedding of the core of the `scorecards` repository
(`src/js/wcif.js`, `src/js/options.js`, `src/js/sc_data.js` / `sc_pdf.js`):
the competition-model accessor, the option-id generation, the scorecard
data deriver, the presentation formatter and the page-layout chunking.

Modelling conventions:
* JS numbers that are always non-negative integers in this code base
  (counts, round numbers, centisecond durations) are modelled as `Nat`;
  attempt counts that are subtracted are modelled as `Int` so that
  subtraction is exact.
* JS property lookups that can yield `undefined`/raise a `TypeError`
  (missing event/round/person/activity ids) are modelled with `Option`,
  `none` standing for the absent/error case.
* The duration formatting divides integer centiseconds by 100 and takes
  `% 60`, `Math.trunc` and `toFixed(2)`; for integer centisecond inputs
  (far below 2^53) these binary64 operations are exact, so they are
  modelled with `Nat` arithmetic, carrying fractional seconds as a `Nat`
  number of centiseconds.
* The percentage-advancement arithmetic `Math.floor(n * (pct / 100))` is
  not exact in binary64 (e.g. `100 * (29 / 100)` is
  `28.999999999999996`, whose floor is 28, not 29). It is modelled by an
  explicit IEEE-754 binary64 round-to-nearest-even model over dyadic
  rationals (`roundRatB64`, `mulNatB64`, `floorDyadic` below), exact for
  the normal finite range these inputs stay in.
* Thrown exceptions are modelled by an `Option`/sum result type.
-/

namespace Scorecards

/-! ## WCIF data model (the already-parsed competition document) -/

/-- An assignment record of a person (`wcif.js`: `personObj.assignments[i]`). -/
structure Assignment where
  activityId : Nat
  assignmentCode : String
deriving DecidableEq

/-- A registration record (`wcif.js`: `personObj.registration`). -/
structure Registration where
  status : String
  isCompeting : Bool
deriving DecidableEq

/-- A person record (`wcif.js`: `personObj`). -/
structure Person where
  registrantId : Nat
  name : String
  wcaId : Option String
  registration : Option Registration
  assignments : List Assignment
deriving DecidableEq

/-- A group (child) activity (`wcif.js`: `x.childActivities[i]`). -/
structure ChildActivity where
  id : Nat
  activityCode : String
deriving DecidableEq

/-- A top-level activity of a room (`wcif.js`: `roomObj.activities[i]`). -/
structure Activity where
  activityCode : String
  childActivities : List ChildActivity
deriving DecidableEq

/-- A room (`wcif.js`: `venues[i].rooms[j]`). -/
structure Room where
  name : String
  activities : List Activity
deriving DecidableEq

/-- A venue (`wcif.js`: `schedule.venues[i]`). -/
structure Venue where
  rooms : List Room
deriving DecidableEq

/-- A cutoff record of a round (`roundObj.cutoff`). `attemptResult` is in centiseconds. -/
structure Cutoff where
  numberOfAttempts : Int
  attemptResult : Nat
deriving DecidableEq

/-- A time-limit record of a round (`roundObj.timeLimit`); `centiseconds` duration plus
the round ids sharing a cumulative limit. -/
structure TimeLimit where
  centiseconds : Nat
  cumulativeRoundIds : List String
deriving DecidableEq

/-- An advancement condition of a round (`roundObj.advancementCondition`):
`type` is `"ranking"` or `"percent"`, `level` the associated count/percentage. -/
structure AdvancementCondition where
  type : String
  level : Nat
deriving DecidableEq

/-- A round record (`eventObj.rounds[i]`). -/
structure Round where
  id : String
  format : String
  cutoff : Option Cutoff
  timeLimit : Option TimeLimit
  advancementCondition : Option AdvancementCondition
deriving DecidableEq

/-- An event record (`data.events[i]`). -/
structure Event where
  id : String
  rounds : List Round
deriving DecidableEq

/-- The schedule part of the document. -/
structure Schedule where
  venues : List Venue
deriving DecidableEq

/-- The WCIF object (`wcif.js`: `class WCIF`), wrapping the parsed document. -/
structure WCIF where
  compId : String
  name : String
  events : List Event
  schedule : Schedule
  persons : List Person
deriving DecidableEq

/-! ## IEEE-754 binary64 model

`getNumAdvancingToRound` computes `Math.floor(numAdvancing * (pct / 100))`
in JS number (binary64) arithmetic, which differs from exact rational
arithmetic at reachable inputs. The following definitions model binary64
round-to-nearest (ties to even) exactly, over non-negative dyadic rationals
`m * 2^e`. The values arising here — integer percentages divided by 100, and
their products with integer competitor counts — stay inside the normal
finite range, where this is the complete binary64 semantics (no subnormals,
no overflow, no NaN). -/

/-- Floor of log2 of `n` (0 for `n < 2`), by structural recursion on a fuel
bound (`fuel ≥ n` suffices). -/
def natLog2Fuel : Nat → Nat → Nat
  | 0, _ => 0
  | fuel + 1, n => if 2 ≤ n then natLog2Fuel fuel (n / 2) + 1 else 0

/-- Floor of log2 of `n` (0 for `n < 2`). -/
def natLog2 (n : Nat) : Nat := natLog2Fuel n n

/-- Smallest `j` with `b ≤ a * 2^j` (for `1 ≤ a`), by structural recursion on
a fuel bound (`fuel ≥ b` suffices since `j ≤ log2 b + 1`). -/
def doublingsFuel : Nat → Nat → Nat → Nat
  | 0, _, _ => 0
  | fuel + 1, a, b => if b ≤ a then 0 else doublingsFuel fuel (2 * a) b + 1

/-- Nearest integer to `x / y` (`y > 0`), ties to even: the mantissa rounding
of IEEE-754 round-to-nearest-even. -/
def nearestEvenDiv (x y : Nat) : Nat :=
  let q := x / y
  let r := x % y
  if 2 * r < y then q
  else if y < 2 * r then q + 1
  else if q % 2 = 0 then q else q + 1

/-- Floor of log2 of the positive rational `a / b` (`a, b ≥ 1`): for
`a / b ≥ 1` it is `natLog2 ⌊a / b⌋`; otherwise `-j` for the smallest `j`
with `2^(-j) ≤ a / b`. -/
def ratILog2 (a b : Nat) : Int :=
  if b ≤ a then (natLog2 (a / b) : Int) else -(doublingsFuel b a b : Int)

/-- A non-negative dyadic rational `m * 2^e`: the exact value of a
non-negative finite binary64 float. -/
structure Dyadic where
  m : Nat
  e : Int
deriving DecidableEq

/-- The binary64 value nearest to the positive rational `a / b` (round to
nearest, ties to even), as an exact dyadic: the mantissa is the nearest
integer (ties to even) to `(a / b) / 2^e` with `e` chosen so that this
quotient lies in `[2^52, 2^53)` — i.e. the spacing of representable doubles
around `a / b` is `2^e`. -/
def roundRatB64 (a b : Nat) : Dyadic :=
  let e : Int := ratILog2 a b - 52
  let m : Nat :=
    if 0 ≤ e then nearestEvenDiv a (b * 2 ^ e.toNat)
    else nearestEvenDiv (a * 2 ^ (-e).toNat) b
  { m := m, e := e }

/-- The binary64 product of the non-negative integer `n` (an integer-valued
double; the running advancing count always is one) with the dyadic float
`d`: the exact product `(n * d.m) * 2^d.e` rounded back to at most 53
mantissa bits, ties to even. A product whose integer part `n * d.m` already
fits in 53 bits is representable and left unchanged, as IEEE-754 requires of
a correctly rounded multiplication. -/
def mulNatB64 (n : Nat) (d : Dyadic) : Dyadic :=
  let a := n * d.m
  if a = 0 then { m := 0, e := 0 }
  else
    let bits := natLog2 a + 1
    if bits ≤ 53 then { m := a, e := d.e }
    else { m := nearestEvenDiv a (2 ^ (bits - 53)), e := d.e + (bits - 53) }

/-- `Math.floor` of a non-negative dyadic (exact on finite doubles). -/
def floorDyadic (d : Dyadic) : Nat :=
  if 0 ≤ d.e then d.m * 2 ^ d.e.toNat else d.m / 2 ^ (-d.e).toNat

/-- `Math.floor(numAdvancing * (pct / 100))` in binary64 arithmetic: the
division `pct / 100` rounds to the nearest double, the multiplication by the
integer-valued double `numAdvancing` rounds again, and `Math.floor` is
exact. For example `100 * (29 / 100)` is `28.999999999999996` in binary64,
so 100 advancing at a 29-percent condition gives 28, where exact arithmetic
would give 29. (`pct = 0` gives the double `0`, whose product and floor are
0.) -/
def floorPercentAdvancing (numAdvancing pct : Nat) : Nat :=
  if pct = 0 then 0
  else floorDyadic (mulNatB64 numAdvancing (roundRatB64 pct 100))

namespace WCIF

/-- `WCIF.getCompName`. -/
def getCompName (w : WCIF) : String :=
  w.name

/-- `WCIF.getEventIds`: event ids of the document, excluding `'333fm'`. -/
def getEventIds (w : WCIF) : List String :=
  (w.events.map (fun x => x.id)).filter (fun x => x ≠ "333fm")

/-- `WCIF.eventIdToName`: static map from event ids to human-readable names.
`none` models a JS `undefined` lookup for an unknown id. -/
def eventIdToName : String → Option String := fun id =>
  if id = "333" then some "3x3x3 Cube" else
  if id = "222" then some "2x2x2 Cube" else
  if id = "444" then some "4x4x4 Cube" else
  if id = "555" then some "5x5x5 Cube" else
  if id = "666" then some "6x6x6 Cube" else
  if id = "777" then some "7x7x7 Cube" else
  if id = "333bf" then some "3x3x3 Blindfolded" else
  if id = "333fm" then some "3x3x3 Fewest Moves" else
  if id = "333oh" then some "3x3x3 One-Handed" else
  if id = "clock" then some "Clock" else
  if id = "minx" then some "Megaminx" else
  if id = "pyram" then some "Pyraminx" else
  if id = "skewb" then some "Skewb" else
  if id = "sq1" then some "Square-1" else
  if id = "444bf" then some "4x4x4 Blindfolded" else
  if id = "555bf" then some "5x5x5 Blindfolded" else
  if id = "333mbf" then some "3x3x3 Multi-Blind" else
  none

/-- `WCIF.#getEventObj`: `find` on the events array (`none` = JS `undefined`). -/
def getEventObj (w : WCIF) (eventId : String) : Option Event :=
  w.events.find? (fun x => x.id == eventId)

/-- `WCIF.#getRoundObj`: the round object with id `` `${eventId}-r${round}` ``.
JS would raise a `TypeError` on a missing event; both absent cases are `none`. -/
def getRoundObj (w : WCIF) (eventId : String) (round : Nat) : Option Round :=
  (w.getEventObj eventId).bind
    (fun eventObj => eventObj.rounds.find? (fun x => x.id == eventId ++ "-r" ++ toString round))

/-- Splitting a character list on every occurrence of the separator `-r`,
mirroring JS `roundId.split('-r')`. -/
def splitDashR : List Char → List (List Char)
  | [] => [[]]
  | '-' :: 'r' :: rest => [] :: splitDashR rest
  | c :: rest =>
    match splitDashR rest with
    | [] => [[c]]
    | p :: ps => (c :: p) :: ps

/-- JS `Number(...)` on the digit strings produced by round-id splitting:
all-digit non-empty strings parse, everything else is `NaN` (modelled `none`). -/
def parseNatDigits (cs : List Char) : Option Nat :=
  if cs ≠ [] ∧ cs.all Char.isDigit then
    some (cs.foldl (fun a c => 10 * a + (c.toNat - Char.toNat '0')) 0)
  else none

/-- `WCIF.getEventIdFromRoundId`: `roundId.split('-r')[0]`. -/
def getEventIdFromRoundId (roundId : String) : String :=
  String.mk ((splitDashR roundId.data).headD [])

/-- `WCIF.getRoundFromRoundId`: `Number(roundId.split('-r')[1])` (`none` = `NaN`). -/
def getRoundFromRoundId (roundId : String) : Option Nat :=
  ((splitDashR roundId.data).get? 1).bind parseNatDigits

/-- `WCIF.#getActCode`: the activity code of a round (`-a1` suffix for multi-blind). -/
def getActCode (eventId : String) (round : Nat) : String :=
  if eventId = "333mbf" then eventId ++ "-r" ++ toString round ++ "-a1"
  else eventId ++ "-r" ++ toString round

/-- `WCIF.getNumRounds`. JS raises a `TypeError` on a missing event; modelled as 0. -/
def getNumRounds (w : WCIF) (eventId : String) : Nat :=
  match w.getEventObj eventId with
  | some eventObj => eventObj.rounds.length
  | none => 0

/-- `WCIF.#getRoomObjs`: all rooms across venues. -/
def getRoomObjs (w : WCIF) : List Room :=
  w.schedule.venues.flatMap (fun x => x.rooms)

/-- `WCIF.getRoomNames`. -/
def getRoomNames (w : WCIF) : List String :=
  (w.getRoomObjs).map (fun x => x.name)

/-- `WCIF.getNumRooms`. -/
def getNumRooms (w : WCIF) : Nat :=
  (w.getRoomObjs).length

/-- `WCIF.#getTopLevelActObjs`. -/
def getTopLevelActObjs (w : WCIF) : List Activity :=
  (w.getRoomObjs).flatMap (fun x => x.activities)

/-- `WCIF.getGroupActIds`: ids of the group (child) activities of a round. -/
def getGroupActIds (w : WCIF) (eventId : String) (round : Nat) : List Nat :=
  ((((w.getTopLevelActObjs).filter
      (fun x => x.activityCode == getActCode eventId round)).flatMap
      (fun x => x.childActivities)).map (fun x => x.id))

/-- `WCIF.#getGroupActObjs`. -/
def getGroupActObjs (w : WCIF) : List ChildActivity :=
  (w.getTopLevelActObjs).flatMap (fun x => x.childActivities)

/-- `WCIF.getCompetitorsFromActId`: registrant ids of persons with a
`competitor` assignment for the activity. -/
def getCompetitorsFromActId (w : WCIF) (actId : Nat) : List Nat :=
  ((w.persons.filter
      (fun p => p.assignments.any
        (fun x => x.activityId == actId && x.assignmentCode == "competitor"))).map
    (fun x => x.registrantId))

/-- Splitting a character list on every occurrence of `-g`,
mirroring JS `actCode.split('-g')` in `getGroupNum`. -/
def splitDashG : List Char → List (List Char)
  | [] => [[]]
  | '-' :: 'g' :: rest => [] :: splitDashG rest
  | c :: rest =>
    match splitDashG rest with
    | [] => [[c]]
    | p :: ps => (c :: p) :: ps

/-- Splitting a character list on every occurrence of `-a`,
mirroring JS `actCode.split('-a')` in `getGroupNum`. -/
def splitDashA : List Char → List (List Char)
  | [] => [[]]
  | '-' :: 'a' :: rest => [] :: splitDashA rest
  | c :: rest =>
    match splitDashA rest with
    | [] => [[c]]
    | p :: ps => (c :: p) :: ps

/-- `WCIF.getGroupNum`: group number parsed from the activity code of the
activity with the given id (attempt suffix stripped first).
`none` covers the JS `TypeError`/`NaN` cases (missing activity, malformed code). -/
def getGroupNum (w : WCIF) (actId : Nat) : Option Nat :=
  ((w.getGroupActObjs).find? (fun x => x.id == actId)).bind (fun actObj =>
    let actCodeNoAttempt := (splitDashA actObj.activityCode.data).headD []
    ((splitDashG actCodeNoAttempt).get? 1).bind parseNatDigits)

/-- `WCIF.getGroupRoom`: name of the room one of whose activities has the given
child activity id (`none` = JS `TypeError` on a missing activity). -/
def getGroupRoom (w : WCIF) (actId : Nat) : Option String :=
  ((w.getRoomObjs).find? (fun roomObj =>
      (roomObj.activities.flatMap (fun x => x.childActivities)).any
        (fun x => x.id == actId))).map
    (fun x => x.name)

/-- `WCIF.getFormat`. JS raises a `TypeError` on a missing round; modelled as `""`. -/
def getFormat (w : WCIF) (eventId : String) (round : Nat) : String :=
  match w.getRoundObj eventId round with
  | some roundObj => roundObj.format
  | none => ""

/-- `WCIF.getCutoffCentisec`: always `null` for `'333mbf'`, otherwise the
cutoff's `attemptResult` (or `null` when the round has no cutoff). -/
def getCutoffCentisec (w : WCIF) (eventId : String) (round : Nat) : Option Nat :=
  if eventId = "333mbf" then none
  else (w.getRoundObj eventId round).bind (fun roundObj =>
    roundObj.cutoff.map (fun cutoffObj => cutoffObj.attemptResult))

/-- `WCIF.getCutoffAttempts`: always `null` for `'333mbf'`, otherwise the
cutoff's `numberOfAttempts` (or `null` when the round has no cutoff). -/
def getCutoffAttempts (w : WCIF) (eventId : String) (round : Nat) : Option Int :=
  if eventId = "333mbf" then none
  else (w.getRoundObj eventId round).bind (fun roundObj =>
    roundObj.cutoff.map (fun cutoffObj => cutoffObj.numberOfAttempts))

/-- `WCIF.getTimeLimit`: the round's time limit in centiseconds
(`null` when `roundObj.timeLimit` is `null`, i.e. for multi-blind). -/
def getTimeLimit (w : WCIF) (eventId : String) (round : Nat) : Option Nat :=
  (w.getRoundObj eventId round).bind (fun roundObj =>
    roundObj.timeLimit.map (fun x => x.centiseconds))

/-- `WCIF.getCumulRoundIds`: the round ids sharing a cumulative time limit
(empty when `roundObj.timeLimit` is `null`). -/
def getCumulRoundIds (w : WCIF) (eventId : String) (round : Nat) : List String :=
  match w.getRoundObj eventId round with
  | none => []
  | some roundObj =>
    match roundObj.timeLimit with
    | none => []
    | some timeLimitObj => timeLimitObj.cumulativeRoundIds

/-- The number of competitors assigned across a round's group activities.
The source inlines this expression in both `groupsAreAssigned` and
`getNumAdvancingToRound` (with a TODO to factor it out). -/
def numAssignedToRound (w : WCIF) (eventId : String) (round : Nat) : Nat :=
  ((w.getGroupActIds eventId round).flatMap
    (fun actId => w.getCompetitorsFromActId actId)).length

/-- `WCIF.groupsAreAssigned`: true if any competitor is assigned to a group of the round. -/
def groupsAreAssigned (w : WCIF) (eventId : String) (round : Nat) : Bool :=
  numAssignedToRound w eventId round > 0

/-- `roundObj.advancementCondition` of a given round
(`none` = missing round or absent condition, where JS would raise/yield `undefined`). -/
def getAdvancementCondition (w : WCIF) (eventId : String) (round : Nat) :
    Option AdvancementCondition :=
  (w.getRoundObj eventId round).bind (fun roundObj => roundObj.advancementCondition)

/-- `WCIF.getNumAdvancingToRound`, rewritten from the backward loop of the
source into an equivalent structural recursion: the loop walks `i` from
`round` down; a round that is round 1 or has assigned groups is the base
(its assigned-competitor count); a `ranking` advancement condition of the
previous round overrides the base with its `level`; a percentage condition
pushes its `level`, and the popped percentages are applied innermost-first,
which is exactly the recursion below. Each percentage step is
`Math.floor(numAdvancing * (pct / 100))` in binary64 arithmetic, modelled
exactly by `floorPercentAdvancing` (the running count is always an
integer-valued double, since it starts as an integer and each step floors).
`round = 0` (loop body never runs, JS yields `NaN`) and a missing
advancement condition (JS `TypeError`, a TODO in the source) are modelled as
`none`. -/
def getNumAdvancingToRound (w : WCIF) (eventId : String) : Nat → Option Nat
  | 0 => none
  | 1 => some (numAssignedToRound w eventId 1)
  | round + 2 =>
    if groupsAreAssigned w eventId (round + 2) then
      some (numAssignedToRound w eventId (round + 2))
    else
      match getAdvancementCondition w eventId (round + 1) with
      | none => none
      | some advanceObj =>
        if advanceObj.type = "ranking" then some advanceObj.level
        else
          (getNumAdvancingToRound w eventId (round + 1)).map
            (fun numAdvancing => floorPercentAdvancing numAdvancing advanceObj.level)

/-- `WCIF.#getCompetitorObjs`'s filter predicate `personIsCompeting`. -/
def personIsCompeting (personObj : Person) : Bool :=
  match personObj.registration with
  | none => false
  | some registration => registration.status == "accepted" && registration.isCompeting

/-- `WCIF.getCompetitorRegistrantIds`: registrant ids of registered, accepted competitors. -/
def getCompetitorRegistrantIds (w : WCIF) : List Nat :=
  (w.persons.filter personIsCompeting).map (fun x => x.registrantId)

/-- `WCIF.#getPersonObj`. -/
def getPersonObj (w : WCIF) (registrantId : Nat) : Option Person :=
  w.persons.find? (fun x => x.registrantId == registrantId)

/-- `WCIF.isNewCompetitor`: whether the person's `wcaId` is `null`
(`none` = JS `TypeError` on a missing person). -/
def isNewCompetitor (w : WCIF) (registrantId : Nat) : Option Bool :=
  (w.getPersonObj registrantId).map (fun personObj => personObj.wcaId.isNone)

/-- `WCIF.getWcaId` (`none` covers both a `null` WCA id and a missing person). -/
def getWcaId (w : WCIF) (registrantId : Nat) : Option String :=
  (w.getPersonObj registrantId).bind (fun personObj => personObj.wcaId)

/-- `WCIF.getPersonName` (`none` = JS `TypeError` on a missing person). -/
def getPersonName (w : WCIF) (registrantId : Nat) : Option String :=
  (w.getPersonObj registrantId).map (fun personObj => personObj.name)

end WCIF

/-! ## Option model (`options.js`) -/

namespace RoundBlanksOption

/-- `RoundBlanksOption.genId`: `` `blanks-round-${eventId}-r${round}` ``. -/
def genId (eventId : String) (round : Nat) : String :=
  "blanks-round-" ++ eventId ++ "-r" ++ toString round

end RoundBlanksOption

/-- JS `room.replace(' ', '-')` with a string pattern replaces only the
first occurrence of the space. -/
def replaceFirstSpace : List Char → List Char
  | [] => []
  | c :: cs => if c = ' ' then '-' :: cs else c :: replaceFirstSpace cs

namespace RoomOption

/-- `RoomOption.genId`: `` `room-abbr-${roomNoSpaces}` `` where `roomNoSpaces`
is the room name with its first space replaced by a dash. -/
def genId (room : String) : String :=
  "room-abbr-" ++ String.mk (replaceFirstSpace room.data)

end RoomOption

/-! ## Scorecard data deriver (`sc_data.js`) -/

/-- `SCType` (enum of scorecard kinds). -/
inductive SCType where
  | competitor : SCType
  | roundBlank : SCType
  | formatBlank : SCType
deriving DecidableEq

/-- `CumulRoundInfo`: data about one round sharing a cumulative time limit. -/
structure CumulRoundInfo where
  eventId : String
  eventName : Option String
  round : Nat
  numRounds : Nat
deriving DecidableEq

/-- The `CumulRoundInfo` constructor: parses the round id and looks up the
event name and round count. A malformed round number (JS `NaN`) is modelled
as 0; it does not occur for well-formed documents. -/
def CumulRoundInfo.ofRoundId (w : WCIF) (roundId : String) : CumulRoundInfo :=
  let eventId := WCIF.getEventIdFromRoundId roundId
  { eventId := eventId
    eventName := WCIF.eventIdToName eventId
    round := (WCIF.getRoundFromRoundId roundId).getD 0
    numRounds := w.getNumRounds eventId }

/-- `SCData`: all the data needed to generate one scorecard. `none` in the
person/group fields models the JS `null` entries of a blank scorecard.
Note that the structure (like the source class) has a `groupRoom` field —
the full room name — and no `groupRoomAbbr` field. -/
structure SCData where
  type : SCType
  compName : String
  registrantId : Option Nat
  newCompetitor : Option Bool
  wcaId : Option String
  personName : Option String
  eventId : String
  eventName : Option String
  round : Nat
  numRounds : Nat
  format : String
  cutoffCentisec : Option Nat
  cutoffAttempts : Option Int
  timeLimit : Option Nat
  cumulRoundInfos : List CumulRoundInfo
  groupNum : Option Nat
  groupRoom : Option String
  numRooms : Option Nat
deriving DecidableEq

/-- JS property access `scData.groupRoomAbbr`: the `SCData` class declares no
such property (its room field is `groupRoom`), so the access always evaluates
to `undefined`. -/
def SCData.groupRoomAbbr (_ : SCData) : Option String :=
  none

/-- `SCData.competitorScData`: scorecard data for a given competitor. -/
def SCData.competitorScData (w : WCIF) (eventId : String) (round : Nat) (actId : Nat)
    (registrantId : Nat) : SCData :=
  { type := SCType.competitor
    compName := w.getCompName
    registrantId := some registrantId
    newCompetitor := w.isNewCompetitor registrantId
    wcaId := w.getWcaId registrantId
    personName := w.getPersonName registrantId
    eventId := eventId
    eventName := WCIF.eventIdToName eventId
    round := round
    numRounds := w.getNumRounds eventId
    format := w.getFormat eventId round
    cutoffCentisec := w.getCutoffCentisec eventId round
    cutoffAttempts := w.getCutoffAttempts eventId round
    timeLimit := w.getTimeLimit eventId round
    cumulRoundInfos := (w.getCumulRoundIds eventId round).map (CumulRoundInfo.ofRoundId w)
    groupNum := w.getGroupNum actId
    groupRoom := w.getGroupRoom actId
    numRooms := some w.getNumRooms }

/-- `SCData.roundBlankScData`: blank-scorecard data for a round
(person and group fields are `null`). -/
def SCData.roundBlankScData (w : WCIF) (eventId : String) (round : Nat) : SCData :=
  { type := SCType.roundBlank
    compName := w.getCompName
    registrantId := none
    newCompetitor := none
    wcaId := none
    personName := none
    eventId := eventId
    eventName := WCIF.eventIdToName eventId
    round := round
    numRounds := w.getNumRounds eventId
    format := w.getFormat eventId round
    cutoffCentisec := w.getCutoffCentisec eventId round
    cutoffAttempts := w.getCutoffAttempts eventId round
    timeLimit := w.getTimeLimit eventId round
    cumulRoundInfos := (w.getCumulRoundIds eventId round).map (CumulRoundInfo.ofRoundId w)
    groupNum := none
    groupRoom := none
    numRooms := none }

/-- `getScDataForGroup`: one competitor scorecard per competitor of the group. -/
def getScDataForGroup (w : WCIF) (eventId : String) (round : Nat) (actId : Nat) :
    List SCData :=
  (w.getCompetitorsFromActId actId).map
    (fun registrantId => SCData.competitorScData w eventId round actId registrantId)

/-- `getScDataForRoundBlanks`: the blank scorecards of a round. The options
object maps option ids to the (numeric) current value of the option; `none`
models a missing id, where JS would raise a `TypeError` reading `.value`.
`Array(Number(numBlanks)).fill(...)` yields `numBlanks` copies of the same
round-blank record. -/
def getScDataForRoundBlanks (w : WCIF) (optionsObj : String → Option Nat)
    (eventId : String) (round : Nat) : Option (List SCData) :=
  let id := RoundBlanksOption.genId eventId round
  (optionsObj id).bind (fun optionValue =>
    let scPerPage : Nat := 4
    let numFillerBlanks : Option Nat :=
      if w.groupsAreAssigned eventId round then
        (w.getNumAdvancingToRound eventId round).map
          (fun numCompetitors => scPerPage - numCompetitors % scPerPage)
      else
        some 0
    numFillerBlanks.map (fun fillerBlanks =>
      List.replicate (fillerBlanks + optionValue * scPerPage)
        (SCData.roundBlankScData w eventId round)))

/-- `getScDataForRound`: competitor scorecards of every group of the round,
followed by the round's blank scorecards. -/
def getScDataForRound (w : WCIF) (optionsObj : String → Option Nat)
    (eventId : String) (round : Nat) : Option (List SCData) :=
  (getScDataForRoundBlanks w optionsObj eventId round).map (fun blanks =>
    ((w.getGroupActIds eventId round).flatMap
      (fun actId => getScDataForGroup w eventId round actId)) ++ blanks)

/-! ## Presentation formatter (`sc_pdf.js`: `SCPDFData`) -/

/-- `SCPDFData.#formatToAttempts`: format code to total number of attempts
(`none` = JS `undefined` for a key outside the table). -/
def formatToAttempts : String → Option Int := fun f =>
  if f = "a" then some 5 else
  if f = "m" then some 3 else
  if f = "1" then some 1 else
  if f = "2" then some 2 else
  if f = "3" then some 3 else
  if f = "5" then some 5 else
  none

/-- `SCPDFData.#formatToCutoffAttempts`: nominal pre-cutoff attempt count of a
format when no cutoff exists; `none` models the stored `null` of the numeric
formats (cutoffs not allowed). -/
def formatToCutoffAttempts : String → Option Int := fun f =>
  if f = "a" then some 2 else
  if f = "m" then some 1 else
  none

/-- JS `String.prototype.trim` on a character list. `Char.isWhitespace`
(space, tab, CR, LF) covers the whitespace occurring in person names; JS
additionally trims exotic Unicode spaces, which no claim exercises. -/
def jsTrim (cs : List Char) : List Char :=
  ((cs.dropWhile Char.isWhitespace).reverse.dropWhile Char.isWhitespace).reverse

/-- `SCPDFData.#setNameData`: split a raw person name into its Roman-readable
part and optional translated part. Returns the pair
`(personNameRoman, personNameTrans)`. -/
def setNameData (scDataName : String) : String × Option String :=
  let trimmed := jsTrim scDataName.data
  match trimmed.findIdx? (fun c => c == '(') with
  | none => (String.mk trimmed, none)
  | some openParInd =>
    (String.mk (jsTrim (trimmed.take openParInd)),
     some (String.mk ((trimmed.drop (openParInd + 1)).dropLast)))

/-- `SCPDFData.#getEventAndRoundText`: `` `${eventName} ${roundText}` `` with
`roundText` being `Final` for the last round and `` `Round ${round}` `` otherwise.
The event name is `Option` because the source reads it off a map lookup;
`none` renders as JS `undefined` does in a template literal. -/
def getEventAndRoundText (eventName : Option String) (round : Nat) (numRounds : Nat) :
    String :=
  let roundText := if round = numRounds then "Final" else "Round " ++ toString round
  (match eventName with
   | some s => s
   | none => "undefined") ++ " " ++ roundText

/-- The decimal rendering of a non-negative value carried as centi-units:
JS `String(value)` when the value is an integer and `value.toFixed(2)`
otherwise (two decimal digits, zero-padded). -/
def centiValueText (centi : Nat) : String :=
  if centi % 100 = 0 then toString (centi / 100)
  else
    toString (centi / 100) ++ "." ++
      (if centi % 100 < 10 then "0" else "") ++ toString (centi % 100)

/-- `SCPDFData.#getTimeTextPart`: `""` for a zero value, otherwise
`` `${valueText} ${unitText}` `` with the unit pluralized unless the value is 1.
The value is carried as centi-units (so `1` is `100`), matching the float
with centisecond precision used by the source. -/
def getTimeTextPart (centiValue : Nat) (unit : String) : String :=
  if centiValue = 0 then ""
  else
    centiValueText centiValue ++ " " ++ (if centiValue = 100 then unit else unit ++ "s")

/-- `SCPDFData.#getTimeText`: human-readable duration from centiseconds.
`Math.trunc(t / 360000)` hours, `Math.trunc(t / 6000) % 60` minutes and
`(t / 100) % 60` seconds (centiseconds kept, i.e. `t % 6000` centi-units);
the non-blank parts are joined by single spaces. -/
def getTimeText (totalCentisec : Nat) : String :=
  let hours := totalCentisec / (100 * 60 * 60)
  let minutes := (totalCentisec / (100 * 60)) % 60
  let secondsCenti := totalCentisec % (100 * 60)
  let timeParts : List (Nat × String) :=
    [(hours * 100, "hour"), (minutes * 100, "minute"), (secondsCenti, "second")]
  String.intercalate " "
    ((timeParts.map (fun x => getTimeTextPart x.1 x.2)).filter (fun x => x ≠ ""))

/-- `SCPDFData.#getCutoffText`: human-readable cutoff sentence; the source
throws unless the attempt threshold is 1 or 2 (modelled as `none`). -/
def getCutoffText (attempts : Int) (totalCentisec : Nat) : Option String :=
  let attemptsText : Option String :=
    if attempts = 1 then some "1"
    else if attempts = 2 then some "1 or 2"
    else none
  attemptsText.map (fun t => "Continue if " ++ t ++ " < " ++ getTimeText totalCentisec)

/-- The cutoff-related members of `SCPDFData` set by `#setCutoffData`. -/
structure CutoffData where
  attemptsPreCutoff : Int
  attemptsPostCutoff : Option Int
  cutoffText : Option String
deriving DecidableEq

/-- `SCPDFData.#setCutoffData`. `none` models the thrown error: a cutoff with
a `null` attempt count or a threshold outside {1, 2} (and, conservatively, a
format outside the attempts table, where JS would compute `NaN` fields). -/
def setCutoffData (scData : SCData) : Option CutoffData :=
  match formatToAttempts scData.format with
  | none => none
  | some totalAttempts =>
    match scData.cutoffCentisec with
    | some cutoffCentisec =>
      match scData.cutoffAttempts with
      | none => none
      | some cutoffAttempts =>
        (getCutoffText cutoffAttempts cutoffCentisec).map (fun text =>
          { attemptsPreCutoff := cutoffAttempts
            attemptsPostCutoff := some (totalAttempts - cutoffAttempts)
            cutoffText := some text })
    | none =>
      match formatToCutoffAttempts scData.format with
      | some nominal =>
        some { attemptsPreCutoff := nominal
               attemptsPostCutoff := some (totalAttempts - nominal)
               cutoffText := some "N/A" }
      | none =>
        some { attemptsPreCutoff := totalAttempts
               attemptsPostCutoff := none
               cutoffText := none }

/-- `SCPDFData.#getCumulRoundText`: suffix naming the rounds sharing a
cumulative time limit (blank for fewer than 2 rounds). -/
def getCumulRoundText (cumulRoundInfos : List CumulRoundInfo) : String :=
  if cumulRoundInfos.length < 2 then ""
  else
    let textArr := cumulRoundInfos.map
      (fun x => getEventAndRoundText x.eventName x.round x.numRounds)
    if cumulRoundInfos.length = 2 then " for " ++ String.intercalate " and " textArr
    else ", shared by " ++ toString cumulRoundInfos.length ++ " events"

/-- The time-limit members of `SCPDFData` set by `#setTimeLimitData`. -/
structure TimeLimitText where
  timeLimitStartText : String
  timeLimitEndText : String
deriving DecidableEq

/-- `SCPDFData.#setTimeLimitData`. Multi-blind gets fixed text; otherwise the
text depends on whether cumulative rounds exist. A `null` time limit only
occurs for multi-blind, which is special-cased first; JS arithmetic on `null`
coerces to 0, hence `getD 0`. -/
def setTimeLimitData (scData : SCData) : TimeLimitText :=
  if scData.eventId = "333mbf" then
    { timeLimitStartText := "Time limit per solve"
      timeLimitEndText := "10 minutes per cube, up to 1 hour" }
  else if scData.cumulRoundInfos.length = 0 then
    { timeLimitStartText := "Time limit per solve"
      timeLimitEndText := "DNF if ≥ " ++ getTimeText (scData.timeLimit.getD 0) }
  else
    { timeLimitStartText := "Cumulative time limit"
      timeLimitEndText :=
        getTimeText (scData.timeLimit.getD 0) ++ getCumulRoundText scData.cumulRoundInfos }

/-- Rendering of an optional string in a JS template literal
(`undefined` renders as the text `undefined`). -/
def jsTemplateOptStr : Option String → String
  | none => "undefined"
  | some s => s

/-- Rendering of an optional number in a JS template literal
(`null` renders as the text `null`). -/
def jsTemplateOptNat : Option Nat → String
  | none => "null"
  | some n => toString n

/-- `SCPDFData.#setGroupData`: the group label
`` `${scData.groupRoomAbbr}${scData.groupNum}` ``. The source reads the
nonexistent property `groupRoomAbbr` (see `SCData.groupRoomAbbr`), so the
first half of the template always renders as `undefined`. -/
def setGroupData (scData : SCData) : String :=
  jsTemplateOptStr scData.groupRoomAbbr ++ jsTemplateOptNat scData.groupNum

/-- `SCPDFData`: the per-scorecard display data consumed by the drawing code.
Fields that `fromScData` leaves unset for blank scorecards are `Option`. -/
structure SCPDFData where
  type : SCType
  compName : String
  registrantId : Option String := none
  wcaId : Option String := none
  personNameRoman : Option String := none
  personNameTrans : Option String := none
  eventAndRoundText : String
  attemptsPreCutoff : Int
  attemptsPostCutoff : Option Int
  cutoffText : Option String
  timeLimitStartText : String
  timeLimitEndText : String
  group : Option String := none
deriving DecidableEq

/-! ## Page layout engine (`sc_pdf.js`: `draw4Scorecards`, `genScPdfEvent`) -/

/-- Outcome of `draw4Scorecards` on one chunk: drawn (with an optional
under-filled-page warning logged to the console), the thrown length error, or
the JS `TypeError` of reading `scPdfSubset[0]` on an empty chunk. -/
inductive Draw4Result where
  | drawn : Option String → Draw4Result
  | layoutError : String → Draw4Result
  | typeError : Draw4Result
deriving DecidableEq

/-- `draw4Scorecards`: draws up to 4 scorecards; warns (via `console.log`) on
fewer than 4, throws on more than 4. -/
def draw4Scorecards (scPdfSubset : List SCPDFData) : Draw4Result :=
  if scPdfSubset.length < 4 then
    match scPdfSubset with
    | [] => Draw4Result.typeError
    | first :: _ =>
      Draw4Result.drawn (some
        ("Warning: " ++ first.eventAndRoundText ++ ": length of scPdfSubset is " ++
          toString scPdfSubset.length ++
          " instead of 4. Did you mean to add blank scorecards to the end?"))
  else if scPdfSubset.length > 4 then
    Draw4Result.layoutError
      ("Length of scPdfSubset is " ++ toString scPdfSubset.length ++ " (must be <= 4)")
  else
    Draw4Result.drawn none

/-- The page loop of `genScPdfEvent`:
`for (let i = 0; i < scPdfArr.length / 4; i++)` runs `⌈length / 4⌉` times
(`(length + 3) / 4` in `Nat`), drawing `scPdfArr.slice(i * 4, (i + 1) * 4)`
on page `i`. -/
def genScPdfPages (scPdfArr : List SCPDFData) : List (List SCPDFData) :=
  (List.range ((scPdfArr.length + 3) / 4)).map
    (fun i => (scPdfArr.drop (4 * i)).take 4)

/-- Helper: the same partition as `genScPdfPages`, as a structural recursion
(used to reason about the partition). -/
def chunk4 {α : Type} : List α → List (List α)
  | [] => []
  | a :: l => (a :: l).take 4 :: chunk4 (l.drop 3)
termination_by x => x.length
decreasing_by simp [List.length_drop]; omega

/-! ## Concrete test fixtures -/

/-- A small document: one event (`333`, one round, format `a`, cutoff of 2
attempts within 70 s), one room with one group activity, and four competitors
all assigned to that group. -/
def wcifFour : WCIF :=
  { compId := "TestComp2026"
    name := "Test Comp 2026"
    events := [{ id := "333"
                 rounds := [{ id := "333-r1"
                              format := "a"
                              cutoff := some { numberOfAttempts := 2, attemptResult := 7000 }
                              timeLimit := some { centiseconds := 60000, cumulativeRoundIds := [] }
                              advancementCondition := none }] }]
    schedule := { venues := [{ rooms := [{ name := "Main Room"
                                           activities := [{ activityCode := "333-r1"
                                                            childActivities := [{ id := 1, activityCode := "333-r1-g1" }] }] }] }] }
    persons := (List.range 4).map (fun i =>
      { registrantId := i + 1
        name := "P"
        wcaId := some "2019XXXX01"
        registration := some { status := "accepted", isCompeting := true }
        assignments := [{ activityId := 1, assignmentCode := "competitor" }] }) }

/-- An options object giving the round-blanks option of `333` round 1 the value 0. -/
def optionsZero : String → Option Nat := fun id =>
  if id = "blanks-round-333-r1" then some 0 else none

/-- A document with 80 registered, accepted competitors, none of them assigned
to any group (scheduling has not produced any activities yet); `333` has two
rounds, round 1 advancing 75 percent. -/
def wcifEighty : WCIF :=
  { compId := "TestComp2026"
    name := "Test Comp 2026"
    events := [{ id := "333"
                 rounds := [{ id := "333-r1"
                              format := "a"
                              cutoff := none
                              timeLimit := some { centiseconds := 60000, cumulativeRoundIds := [] }
                              advancementCondition := some { type := "percent", level := 75 } },
                            { id := "333-r2"
                              format := "a"
                              cutoff := none
                              timeLimit := some { centiseconds := 60000, cumulativeRoundIds := [] }
                              advancementCondition := none }] }]
    schedule := { venues := [] }
    persons := (List.range 80).map (fun i =>
      { registrantId := i + 1
        name := "P"
        wcaId := some "2019XXXX01"
        registration := some { status := "accepted", isCompeting := true }
        assignments := [] }) }

/-- A document whose multi-blind round declares a cutoff (2 attempts within
420 s) in the underlying data. -/
def wcifMbf : WCIF :=
  { compId := "TestComp2026"
    name := "Test Comp 2026"
    events := [{ id := "333mbf"
                 rounds := [{ id := "333mbf-r1"
                              format := "3"
                              cutoff := some { numberOfAttempts := 2, attemptResult := 42000 }
                              timeLimit := none
                              advancementCondition := none }] }]
    schedule := { venues := [{ rooms := [{ name := "Main Room"
                                           activities := [{ activityCode := "333mbf-r1-a1"
                                                            childActivities := [{ id := 7, activityCode := "333mbf-r1-g1-a1" }] }] }] }] }
    persons := [{ registrantId := 1
                  name := "P"
                  wcaId := some "2019XXXX01"
                  registration := some { status := "accepted", isCompeting := true }
                  assignments := [{ activityId := 7, assignmentCode := "competitor" }] }] }

/-- A competitor scorecard record: format `a`, cutoff of 2 attempts within
70 s, group 2 of room `Main Room`. -/
def scDataBase : SCData :=
  { type := SCType.competitor
    compName := "Test Comp 2026"
    registrantId := some 42
    newCompetitor := some false
    wcaId := some "2019XXXX01"
    personName := some "Jason Chang (章維祐)"
    eventId := "333"
    eventName := some "3x3x3 Cube"
    round := 1
    numRounds := 2
    format := "a"
    cutoffCentisec := some 7000
    cutoffAttempts := some 2
    timeLimit := some 60000
    cumulRoundInfos := []
    groupNum := some 2
    groupRoom := some "Main Room"
    numRooms := some 1 }

/-- Cumulative-round reference: the 4x4x4 Blindfolded final. -/
def cumul444 : CumulRoundInfo :=
  { eventId := "444bf", eventName := some "4x4x4 Blindfolded", round := 1, numRounds := 1 }

/-- Cumulative-round reference: the 5x5x5 Blindfolded final. -/
def cumul555 : CumulRoundInfo :=
  { eventId := "555bf", eventName := some "5x5x5 Blindfolded", round := 1, numRounds := 1 }

/-- A scorecard record with a cumulative time limit (1 hour) shared by the
4x4x4 Blindfolded final and the 5x5x5 Blindfolded final. -/
def scDataCumulTwo : SCData :=
  { scDataBase with
      eventId := "444bf"
      eventName := some "4x4x4 Blindfolded"
      format := "3"
      cutoffCentisec := none
      cutoffAttempts := none
      timeLimit := some 360000
      cumulRoundInfos := [cumul444, cumul555] }

/-- A round-blank display record used to exercise the page partition. -/
def blankCardPDF : SCPDFData :=
  { type := SCType.roundBlank
    compName := "Test Comp 2026"
    eventAndRoundText := "3x3x3 Cube Round 1"
    attemptsPreCutoff := 2
    attemptsPostCutoff := some 3
    cutoffText := some "Continue if 1 or 2 < 1 minute 10 seconds"
    timeLimitStartText := "Time limit per solve"
    timeLimitEndText := "DNF if ≥ 10 minutes" }

/-! ## Helper lemmas -/

/-- If groups are assigned for a round (and the round number is at least 1),
`getNumAdvancingToRound` is exactly the assigned-competitor count of that round. -/
theorem getNumAdvancingToRound_of_assigned (w : WCIF) (e : String) :
    ∀ r, 1 ≤ r → w.groupsAreAssigned e r = true →
      w.getNumAdvancingToRound e r = some (w.numAssignedToRound e r)
  | 0, h, _ => absurd h (by omega)
  | 1, _, _ => rfl
  | (r + 2), _, hg => by
    unfold WCIF.getNumAdvancingToRound
    simp [hg]

/-! ## Claim C1 -/

/-- C1 (amended): for every event and round (with round number at least 1)
whose round-blanks option has value N, if groups are assigned for the round
the deriver emits `fillerBlanks + N * 4` RoundBlank records where
`fillerBlanks = 4 - (numAssignedCompetitors mod 4)`, which lies in [1, 4]
(it is 4, not 0, when the count is already a multiple of 4); if groups are
not assigned, exactly `N * 4` RoundBlank records are emitted. -/
theorem roundBlanks_count (w : WCIF) (optionsObj : String → Option Nat)
    (eventId : String) (round n : Nat) (hr : 1 ≤ round)
    (hopt : optionsObj (RoundBlanksOption.genId eventId round) = some n) :
    (w.groupsAreAssigned eventId round = true →
      (getScDataForRoundBlanks w optionsObj eventId round).map List.length
        = some ((4 - w.numAssignedToRound eventId round % 4) + n * 4)
      ∧ 1 ≤ 4 - w.numAssignedToRound eventId round % 4
      ∧ 4 - w.numAssignedToRound eventId round % 4 ≤ 4)
    ∧ (w.groupsAreAssigned eventId round = false →
      (getScDataForRoundBlanks w optionsObj eventId round).map List.length
        = some (n * 4)) := by
  constructor
  · intro hg
    have hnum := getNumAdvancingToRound_of_assigned w eventId round hr hg
    refine ⟨?_, ?_, ?_⟩
    · simp [getScDataForRoundBlanks, hopt, hg, hnum]
    · have hlt : w.numAssignedToRound eventId round % 4 < 4 := Nat.mod_lt _ (by omega)
      omega
    · omega
  · intro hg
    simp [getScDataForRoundBlanks, hopt, hg]

/-- C1 counterexample: in `wcifFour`, groups are assigned for `333` round 1
with 4 competitors (a multiple of 4) and the round-blanks option value is 0,
so the claim predicts `0 + 4 * 0 = 0` blank records; the deriver emits 4. -/
theorem roundBlanks_count_counterexample :
    wcifFour.groupsAreAssigned "333" 1 = true
    ∧ wcifFour.getNumAdvancingToRound "333" 1 = some 4
    ∧ optionsZero (RoundBlanksOption.genId "333" 1) = some 0
    ∧ (getScDataForRoundBlanks wcifFour optionsZero "333" 1).map List.length = some 4
    ∧ ¬((getScDataForRoundBlanks wcifFour optionsZero "333" 1).map List.length
          = some (0 + 4 * 0)) := by
  decide

/-- Witness for `roundBlanks_count` at `wcifFour`, `333` round 1, option value 0. -/
theorem roundBlanks_count_witness :
    1 ≤ 1
    ∧ optionsZero (RoundBlanksOption.genId "333" 1) = some 0
    ∧ wcifFour.groupsAreAssigned "333" 1 = true
    ∧ (getScDataForRoundBlanks wcifFour optionsZero "333" 1).map List.length
        = some ((4 - wcifFour.numAssignedToRound "333" 1 % 4) + 0 * 4) :=
  ⟨by decide, by decide, by decide,
    ((roundBlanks_count wcifFour optionsZero "333" 1 0 (by decide) (by decide)).1
      (by decide)).1⟩

/-! ## Claim C2 -/

/-- C2 (code bug): the formatted group label of every scorecard record is the
literal text `undefined` followed by the group number — the source reads the
nonexistent `groupRoomAbbr` property of `SCData`, and the room-abbreviation
option value is never consulted. At the failing input (group 2, room
`Main Room` whose abbreviation option is `M`) the label is `undefined2`,
not `M2` as the claim requires. -/
theorem setGroupData_is_undefined :
    (∀ scData : SCData,
      setGroupData scData = "undefined" ++ jsTemplateOptNat scData.groupNum)
    ∧ setGroupData scDataBase = "undefined2"
    ∧ setGroupData scDataBase ≠ "M2" :=
  ⟨fun _ => rfl, by decide, by decide⟩

/-! ## Claim C3 -/

/-- C3 (amended): `getNumAdvancingToRound` at round 1 always equals the number
of competitor assignments across round 1's group activities (0 when no groups
are assigned, regardless of the registration count); for any round with
assigned groups it equals that round's assignment count; for a later round
without assigned groups it reads the previous round's advancement condition —
`ranking` yields its level directly, any other type (percent) multiplies the
previous round's value by `level / 100` in binary64 floating-point arithmetic
(the division and the multiplication each rounding to nearest, ties to even)
and floors. The binary64 step differs from exact arithmetic: 100 advancing at
29 percent gives 28 (since `100 * (29 / 100)` is `28.999999999999996`), not
the exact 29, while 55 at 75 percent gives the exact 41. -/
theorem numAdvancing_spec :
    (∀ (w : WCIF) (e : String),
      w.getNumAdvancingToRound e 1 = some (w.numAssignedToRound e 1))
    ∧ (∀ (w : WCIF) (e : String) (r : Nat), 1 ≤ r →
        w.groupsAreAssigned e r = true →
        w.getNumAdvancingToRound e r = some (w.numAssignedToRound e r))
    ∧ (∀ (w : WCIF) (e : String) (r : Nat) (adv : AdvancementCondition),
        w.groupsAreAssigned e (r + 2) = false →
        w.getAdvancementCondition e (r + 1) = some adv →
        ((adv.type = "ranking" →
            w.getNumAdvancingToRound e (r + 2) = some adv.level)
         ∧ (adv.type ≠ "ranking" →
            w.getNumAdvancingToRound e (r + 2)
              = (w.getNumAdvancingToRound e (r + 1)).map
                  (fun numAdvancing => floorPercentAdvancing numAdvancing adv.level))))
    ∧ floorPercentAdvancing 100 29 = 28
    ∧ floorPercentAdvancing 100 29 ≠ 100 * 29 / 100
    ∧ floorPercentAdvancing 55 75 = 41 := by
  refine ⟨fun w e => rfl, fun w e r hr hg => getNumAdvancingToRound_of_assigned w e r hr hg,
    fun w e r adv hg hadv => ⟨?_, ?_⟩, by decide, by decide, by decide⟩
  · intro ht
    conv_lhs => unfold WCIF.getNumAdvancingToRound
    simp [hg, hadv, ht]
  · intro ht
    conv_lhs => unfold WCIF.getNumAdvancingToRound
    simp [hg, hadv, ht]

/-- C3 counterexample: `wcifEighty` has 80 registered, accepted competitors
and no group assignments; the claim says `getNumAdvancingToRound('333', 1)`
returns the registration count 80, but the code returns the assigned count 0. -/
theorem numAdvancing_counterexample :
    wcifEighty.getCompetitorRegistrantIds.length = 80
    ∧ wcifEighty.groupsAreAssigned "333" 1 = false
    ∧ wcifEighty.getNumAdvancingToRound "333" 1 = some 0
    ∧ wcifEighty.getNumAdvancingToRound "333" 1 ≠ some 80 := by
  decide

/-- Witness for `numAdvancing_spec` (percent branch) at `wcifEighty`, round 2. -/
theorem numAdvancing_spec_witness :
    wcifEighty.groupsAreAssigned "333" 2 = false
    ∧ wcifEighty.getAdvancementCondition "333" 1
        = some { type := "percent", level := 75 }
    ∧ ("percent" : String) ≠ "ranking"
    ∧ wcifEighty.getNumAdvancingToRound "333" 2
        = (wcifEighty.getNumAdvancingToRound "333" 1).map
            (fun numAdvancing => floorPercentAdvancing numAdvancing 75) :=
  ⟨by decide, by decide, by decide,
    (numAdvancing_spec.2.2.1 wcifEighty "333" 0 { type := "percent", level := 75 }
      (by decide) (by decide)).2 (by decide)⟩

/-! ## Claim C4 -/

/-- C4 (confirmed): with a cutoff present, `attemptsPreCutoff` is the cutoff's
attempt threshold, `attemptsPostCutoff` is the format's total attempts minus
that threshold, and the sentence is `Continue if {1 | 1 or 2} < {duration}`;
a threshold outside {1, 2} is an error (`none`) instead of a sentence. With
no cutoff but a format that allows cutoffs, the nominal count is used and the
sentence is `N/A`. With a format that disallows cutoffs, the pre-cutoff count
is the total and the post-cutoff count and sentence are absent. In particular
format `a` with cutoff {attempts 2, duration 7000 cs} yields pre = 2,
post = 3 and `Continue if 1 or 2 < 1 minute 10 seconds`. -/
theorem cutoffData_spec :
    (∀ (sc : SCData) (total : Int) (c : Nat),
      formatToAttempts sc.format = some total → sc.cutoffCentisec = some c →
      ((sc.cutoffAttempts = some 1 →
          setCutoffData sc
            = some { attemptsPreCutoff := 1
                     attemptsPostCutoff := some (total - 1)
                     cutoffText := some ("Continue if 1 < " ++ getTimeText c) })
       ∧ (sc.cutoffAttempts = some 2 →
          setCutoffData sc
            = some { attemptsPreCutoff := 2
                     attemptsPostCutoff := some (total - 2)
                     cutoffText := some ("Continue if 1 or 2 < " ++ getTimeText c) })
       ∧ (∀ a : Int, sc.cutoffAttempts = some a → a ≠ 1 → a ≠ 2 →
            setCutoffData sc = none)))
    ∧ (∀ (sc : SCData) (total nominal : Int),
        formatToAttempts sc.format = some total → sc.cutoffCentisec = none →
        formatToCutoffAttempts sc.format = some nominal →
        setCutoffData sc
          = some { attemptsPreCutoff := nominal
                   attemptsPostCutoff := some (total - nominal)
                   cutoffText := some "N/A" })
    ∧ (∀ (sc : SCData) (total : Int),
        formatToAttempts sc.format = some total → sc.cutoffCentisec = none →
        formatToCutoffAttempts sc.format = none →
        setCutoffData sc
          = some { attemptsPreCutoff := total
                   attemptsPostCutoff := none
                   cutoffText := none })
    ∧ (∀ sc : SCData, sc.format = "a" → sc.cutoffCentisec = some 7000 →
        sc.cutoffAttempts = some 2 →
        setCutoffData sc
          = some { attemptsPreCutoff := 2
                   attemptsPostCutoff := some 3
                   cutoffText := some "Continue if 1 or 2 < 1 minute 10 seconds" }) := by
  have hpresent : ∀ (sc : SCData) (total : Int) (c : Nat),
      formatToAttempts sc.format = some total → sc.cutoffCentisec = some c →
      ((sc.cutoffAttempts = some 1 →
          setCutoffData sc
            = some { attemptsPreCutoff := 1
                     attemptsPostCutoff := some (total - 1)
                     cutoffText := some ("Continue if 1 < " ++ getTimeText c) })
       ∧ (sc.cutoffAttempts = some 2 →
          setCutoffData sc
            = some { attemptsPreCutoff := 2
                     attemptsPostCutoff := some (total - 2)
                     cutoffText := some ("Continue if 1 or 2 < " ++ getTimeText c) })
       ∧ (∀ a : Int, sc.cutoffAttempts = some a → a ≠ 1 → a ≠ 2 →
            setCutoffData sc = none)) := by
    intro sc total c hf hc
    refine ⟨fun h1 => ?_, fun h2 => ?_, fun a ha hne1 hne2 => ?_⟩
    · simp [setCutoffData, hf, hc, h1, getCutoffText]
    · simp [setCutoffData, hf, hc, h2, getCutoffText]
    · simp [setCutoffData, hf, hc, ha, getCutoffText, hne1, hne2]
  refine ⟨hpresent, ?_, ?_, ?_⟩
  · intro sc total nominal hf hc hn
    simp [setCutoffData, hf, hc, hn]
  · intro sc total hf hc hn
    simp [setCutoffData, hf, hc, hn]
  · intro sc h1 h2 h3
    have h := (hpresent sc 5 7000 (by rw [h1]; decide) h2).2.1 h3
    rw [h]
    decide

/-- Witness for `cutoffData_spec` at `scDataBase` (format `a`, cutoff
{attempts 2, duration 7000 cs}). -/
theorem cutoffData_spec_witness :
    scDataBase.format = "a"
    ∧ scDataBase.cutoffCentisec = some 7000
    ∧ scDataBase.cutoffAttempts = some 2
    ∧ setCutoffData scDataBase
        = some { attemptsPreCutoff := 2
                 attemptsPostCutoff := some 3
                 cutoffText := some "Continue if 1 or 2 < 1 minute 10 seconds" } :=
  ⟨rfl, rfl, rfl, cutoffData_spec.2.2.2 scDataBase rfl rfl rfl⟩

/-! ## Claim C5 -/

/-- C5 (confirmed): the human-readable duration function is total on
non-negative centisecond inputs (`Nat`); a zero component renders as the
empty string and a non-zero component as `{value} {unit}` with the unit
pluralized unless the value equals 1 (carried as 100 centi-units);
`humanDuration(0) = ""`, `humanDuration(100) = "1 second"`,
`humanDuration(6025) = "1 minute 0.25 seconds"` (showing the single-space
join with zero components omitted and fractional centisecond precision) and
`humanDuration(360000) = "1 hour"`. -/
theorem humanDuration_spec :
    getTimeText 0 = ""
    ∧ getTimeText 100 = "1 second"
    ∧ getTimeText 6025 = "1 minute 0.25 seconds"
    ∧ getTimeText 360000 = "1 hour"
    ∧ (∀ unit : String, getTimeTextPart 0 unit = "")
    ∧ (∀ (centiValue : Nat) (unit : String), centiValue ≠ 0 →
        getTimeTextPart centiValue unit
          = centiValueText centiValue ++ " "
            ++ (if centiValue = 100 then unit else unit ++ "s")) := by
  refine ⟨by decide, by decide, by decide, by decide, fun unit => rfl,
    fun centiValue unit hc => ?_⟩
  simp [getTimeTextPart, hc]

/-- Witness for `humanDuration_spec` at 25 centi-units (0.25 seconds). -/
theorem humanDuration_spec_witness :
    (25 : Nat) ≠ 0
    ∧ getTimeTextPart 25 "second"
        = centiValueText 25 ++ " " ++ (if (25 : Nat) = 100 then "second" else "second" ++ "s") :=
  ⟨by decide, humanDuration_spec.2.2.2.2.2 25 "second" (by decide)⟩

/-! ## Claim C6 -/

/-- `textArr.join(' and ')` on a two-element array. -/
theorem intercalate_pair (s a b : String) : String.intercalate s [a, b] = a ++ s ++ b :=
  rfl

/-- C6 (confirmed): multi-blind always gets label `Time limit per solve` and
the fixed sentence `10 minutes per cube, up to 1 hour`; otherwise zero
cumulative-round references give label `Time limit per solve` and sentence
`DNF if ≥ {duration}`; one or more give label `Cumulative time limit` and the
duration plus a suffix: empty for exactly one reference,
`" for {label} and {label}"` for exactly two, `", shared by {N} events"` for
three or more. -/
theorem timeLimit_spec :
    (∀ sc : SCData, sc.eventId = "333mbf" →
      setTimeLimitData sc
        = { timeLimitStartText := "Time limit per solve"
            timeLimitEndText := "10 minutes per cube, up to 1 hour" })
    ∧ (∀ (sc : SCData) (tl : Nat), sc.eventId ≠ "333mbf" →
        sc.cumulRoundInfos = [] → sc.timeLimit = some tl →
        setTimeLimitData sc
          = { timeLimitStartText := "Time limit per solve"
              timeLimitEndText := "DNF if ≥ " ++ getTimeText tl })
    ∧ (∀ (sc : SCData) (tl : Nat) (x : CumulRoundInfo), sc.eventId ≠ "333mbf" →
        sc.timeLimit = some tl → sc.cumulRoundInfos = [x] →
        setTimeLimitData sc
          = { timeLimitStartText := "Cumulative time limit"
              timeLimitEndText := getTimeText tl })
    ∧ (∀ (sc : SCData) (tl : Nat) (x y : CumulRoundInfo), sc.eventId ≠ "333mbf" →
        sc.timeLimit = some tl → sc.cumulRoundInfos = [x, y] →
        setTimeLimitData sc
          = { timeLimitStartText := "Cumulative time limit"
              timeLimitEndText := getTimeText tl ++ " for "
                ++ getEventAndRoundText x.eventName x.round x.numRounds ++ " and "
                ++ getEventAndRoundText y.eventName y.round y.numRounds })
    ∧ (∀ (sc : SCData) (tl : Nat), sc.eventId ≠ "333mbf" →
        sc.timeLimit = some tl → 3 ≤ sc.cumulRoundInfos.length →
        setTimeLimitData sc
          = { timeLimitStartText := "Cumulative time limit"
              timeLimitEndText := getTimeText tl ++ ", shared by "
                ++ toString sc.cumulRoundInfos.length ++ " events" }) := by
  refine ⟨fun sc hmbf => ?_, fun sc tl hmbf hinfos htl => ?_,
    fun sc tl x hmbf htl hinfos => ?_, fun sc tl x y hmbf htl hinfos => ?_,
    fun sc tl hmbf htl hlen => ?_⟩
  · simp [setTimeLimitData, hmbf]
  · simp [setTimeLimitData, hmbf, hinfos, htl]
  · simp [setTimeLimitData, hmbf, hinfos, htl, getCumulRoundText, String.append_empty]
  · simp [setTimeLimitData, hmbf, hinfos, htl, getCumulRoundText, intercalate_pair,
      String.append_assoc]
  · have h0 : sc.cumulRoundInfos.length ≠ 0 := by omega
    have h1 : ¬(sc.cumulRoundInfos.length < 2) := by omega
    have h2 : sc.cumulRoundInfos.length ≠ 2 := by omega
    simp [setTimeLimitData, hmbf, htl, getCumulRoundText, h0, h1, h2, String.append_assoc]

/-- Witness for `timeLimit_spec` (two shared rounds) at `scDataCumulTwo`. -/
theorem timeLimit_spec_witness :
    scDataCumulTwo.eventId ≠ "333mbf"
    ∧ scDataCumulTwo.timeLimit = some 360000
    ∧ scDataCumulTwo.cumulRoundInfos = [cumul444, cumul555]
    ∧ setTimeLimitData scDataCumulTwo
        = { timeLimitStartText := "Cumulative time limit"
            timeLimitEndText := getTimeText 360000 ++ " for "
              ++ getEventAndRoundText cumul444.eventName cumul444.round cumul444.numRounds
              ++ " and "
              ++ getEventAndRoundText cumul555.eventName cumul555.round cumul555.numRounds } :=
  ⟨by decide, by decide, by decide,
    timeLimit_spec.2.2.2.1 scDataCumulTwo 360000 cumul444 cumul555
      (by decide) (by decide) (by decide)⟩

/-! ## Claim C7 -/

/-- `findIdx?` with accumulator is `none` when no element satisfies the predicate. -/
theorem findIdxAux_eq_none (p : Char → Bool) :
    ∀ (l : List Char) (i : Nat), (∀ c ∈ l, p c = false) → List.findIdx? p l i = none
  | [], _, _ => rfl
  | c :: l, i, h => by
    simp only [List.findIdx?_cons, h c (by simp)]
    simpa using findIdxAux_eq_none p l (i + 1) (fun x hx => h x (by simp [hx]))

/-- `findIdx?` with accumulator finds the first `(` right after a `(`-free prefix. -/
theorem findIdxAux_append_paren (b : List Char) :
    ∀ (a : List Char) (i : Nat), (∀ c ∈ a, (c == '(') = false) →
      List.findIdx? (fun c => c == '(') (a ++ '(' :: b) i = some (i + a.length)
  | [], i, _ => by simp [List.findIdx?_cons]
  | c :: a, i, h => by
    have hc : (c == '(') = false := h c (by simp)
    have ih := findIdxAux_append_paren b a (i + 1) (fun x hx => h x (by simp [hx]))
    simp only [List.cons_append, List.findIdx?_cons, hc, Bool.false_eq_true, if_false, ih]
    congr 1
    simp
    omega

/-- C7 (confirmed): name splitting is total; when the trimmed name contains no
`(` the whole trimmed name is the roman part and the translated part is
absent; when the trimmed name is a `(`-free prefix followed by `(` and a tail,
the roman part is that prefix re-trimmed and the translated part is the tail
with its final character dropped. `split("Jason Chang") = ("Jason Chang",
absent)` and `split("Jason Chang (章維祐)") = ("Jason Chang", "章維祐")`. -/
theorem nameSplit_spec :
    (∀ name : String, (∀ c ∈ jsTrim name.data, c ≠ '(') →
        setNameData name = (String.mk (jsTrim name.data), none))
    ∧ (∀ (name : String) (a b : List Char), jsTrim name.data = a ++ '(' :: b →
        (∀ c ∈ a, c ≠ '(') →
        setNameData name = (String.mk (jsTrim a), some (String.mk b.dropLast)))
    ∧ setNameData "Jason Chang" = ("Jason Chang", none)
    ∧ setNameData "Jason Chang (章維祐)" = ("Jason Chang", some "章維祐") := by
  refine ⟨fun name h => ?_, fun name a b htrim ha => ?_, by decide, by decide⟩
  · have h2 : ∀ c ∈ jsTrim name.data, (fun c => c == '(') c = false := fun c hc => by
      simpa using h c hc
    simp [setNameData, findIdxAux_eq_none _ _ 0 h2]
  · have ha2 : ∀ c ∈ a, (c == '(') = false := fun c hc => by simpa using ha c hc
    have hidx := findIdxAux_append_paren b a 0 ha2
    have htake : (a ++ '(' :: b).take a.length = a := List.take_left a _
    have hdrop : (a ++ '(' :: b).drop (a.length + 1) = b := by
      have heq : a ++ '(' :: b = (a ++ ['(']) ++ b := by simp
      have hl : a.length + 1 = (a ++ ['(']).length := by simp
      rw [heq, hl]
      exact List.drop_left _ _
    simp [setNameData, htrim, hidx, htake, hdrop]

/-- Witness for `nameSplit_spec` at `"Jason Chang (章維祐)"`. -/
theorem nameSplit_spec_witness :
    jsTrim ("Jason Chang (章維祐)" : String).data
        = ("Jason Chang " : String).data ++ '(' :: ("章維祐)" : String).data
    ∧ (∀ c ∈ ("Jason Chang " : String).data, c ≠ '(')
    ∧ setNameData "Jason Chang (章維祐)"
        = (String.mk (jsTrim ("Jason Chang " : String).data),
           some (String.mk ("章維祐)" : String).data.dropLast)) :=
  ⟨by decide, by decide,
    nameSplit_spec.2.1 "Jason Chang (章維祐)" ("Jason Chang " : String).data
      ("章維祐)" : String).data (by decide) (by decide)⟩

/-! ## Claim C8 -/

/-- The chunks of `chunk4` concatenate back to the original list. -/
theorem chunk4_flatten {α : Type} (l : List α) : (chunk4 l).flatten = l := by
  induction l using chunk4.induct with
  | case1 => simp [chunk4]
  | case2 a l ih =>
    have hdrop : (a :: l).drop 4 = l.drop 3 := rfl
    rw [chunk4]
    simp only [List.flatten_cons, ih]
    rw [← hdrop, List.take_append_drop]

/-- Every chunk of `chunk4` has between 1 and 4 elements. -/
theorem chunk4_mem_length {α : Type} (l : List α) :
    ∀ p ∈ chunk4 l, 1 ≤ p.length ∧ p.length ≤ 4 := by
  induction l using chunk4.induct with
  | case1 => intro p hp; simp [chunk4] at hp
  | case2 a l ih =>
    intro p hp
    rw [chunk4] at hp
    rcases List.mem_cons.mp hp with h | h
    · subst h
      simp only [List.length_take, List.length_cons]
      omega
    · exact ih p h

/-- The slice loop of `genScPdfEvent` computes exactly the `chunk4` partition. -/
theorem genScPdfPages_eq_chunk4 (arr : List SCPDFData) :
    genScPdfPages arr = chunk4 arr := by
  induction arr using chunk4.induct with
  | case1 => simp [genScPdfPages, chunk4]
  | case2 a l ih =>
    rw [chunk4, ← ih]
    unfold genScPdfPages
    have hlen : ((a :: l).length + 3) / 4 = ((l.drop 3).length + 3) / 4 + 1 := by
      simp only [List.length_drop, List.length_cons]
      omega
    rw [hlen, List.range_succ_eq_map, List.map_cons, List.map_map]
    congr 1
    refine List.map_congr_left (fun i _ => ?_)
    show ((a :: l).drop (4 * (i + 1))).take 4 = ((l.drop 3).drop (4 * i)).take 4
    congr 1
    have h4 : 4 * (i + 1) = 4 + 4 * i := by ring
    rw [h4, ← List.drop_drop]
    rfl

/-- C8 (confirmed): the layout engine partitions an event's record sequence
into `⌈K/4⌉` consecutive chunks (pages) of at most 4 records each, in order;
every produced chunk is drawn (a final chunk of fewer than 4 records only
logs a warning), while a chunk of more than 4 records yields the fatal
layout error; a 10-record sequence yields exactly 3 pages with chunks of
4, 4 and 2 records. -/
theorem pageLayout_spec :
    (∀ arr : List SCPDFData,
      (genScPdfPages arr).length = (arr.length + 3) / 4
      ∧ (genScPdfPages arr).flatten = arr
      ∧ (∀ p ∈ genScPdfPages arr, 1 ≤ p.length ∧ p.length ≤ 4
          ∧ ∃ warning : Option String, draw4Scorecards p = Draw4Result.drawn warning))
    ∧ (∀ chunk : List SCPDFData, 4 < chunk.length →
        draw4Scorecards chunk
          = Draw4Result.layoutError
              ("Length of scPdfSubset is " ++ toString chunk.length ++ " (must be <= 4)"))
    ∧ (genScPdfPages (List.replicate 10 blankCardPDF)).map List.length = [4, 4, 2] := by
  refine ⟨fun arr => ⟨?_, ?_, ?_⟩, fun chunk h => ?_, by decide⟩
  · simp [genScPdfPages]
  · rw [genScPdfPages_eq_chunk4]
    exact chunk4_flatten arr
  · intro p hp
    rw [genScPdfPages_eq_chunk4] at hp
    obtain ⟨h1, h4⟩ := chunk4_mem_length arr p hp
    refine ⟨h1, h4, ?_⟩
    by_cases hlt : p.length < 4
    · rcases p with _ | ⟨x, rest⟩
      · simp at h1
      · refine ⟨some ("Warning: " ++ x.eventAndRoundText ++ ": length of scPdfSubset is "
            ++ toString (x :: rest).length
            ++ " instead of 4. Did you mean to add blank scorecards to the end?"), ?_⟩
        simp only [draw4Scorecards]
        rw [if_pos hlt]
    · have hgt : ¬(p.length > 4) := by omega
      exact ⟨none, by simp [draw4Scorecards, hlt, hgt]⟩
  · have hlt : ¬(chunk.length < 4) := by omega
    simp [draw4Scorecards, hlt, h]

/-- Witness for `pageLayout_spec`: an over-full 5-record chunk raises the
layout error, and the first page of a 10-record sequence is a full chunk. -/
theorem pageLayout_spec_witness :
    4 < (List.replicate 5 blankCardPDF).length
    ∧ draw4Scorecards (List.replicate 5 blankCardPDF)
        = Draw4Result.layoutError
            ("Length of scPdfSubset is "
              ++ toString (List.replicate 5 blankCardPDF).length ++ " (must be <= 4)")
    ∧ (List.replicate 4 blankCardPDF ∈ genScPdfPages (List.replicate 10 blankCardPDF)
        ∧ 1 ≤ (List.replicate 4 blankCardPDF).length
        ∧ (List.replicate 4 blankCardPDF).length ≤ 4
        ∧ ∃ warning : Option String,
            draw4Scorecards (List.replicate 4 blankCardPDF) = Draw4Result.drawn warning) :=
  ⟨by decide, pageLayout_spec.2.1 (List.replicate 5 blankCardPDF) (by decide),
    by decide,
    (pageLayout_spec.1 (List.replicate 10 blankCardPDF)).2.2
      (List.replicate 4 blankCardPDF) (by decide)⟩

/-! ## Claim C9 -/

/-- `Nat.digitChar` of a value below 10 is a decimal digit. -/
theorem digitChar_isDigit : ∀ m < 10, (Nat.digitChar m).isDigit = true := by
  decide

/-- Unfolding equation of `Nat.toDigitsCore` at base 10 with positive fuel. -/
theorem toDigitsCore_succ (fuel n : Nat) (ds : List Char) :
    Nat.toDigitsCore 10 (fuel + 1) n ds
      = if n / 10 = 0 then Nat.digitChar (n % 10) :: ds
        else Nat.toDigitsCore 10 fuel (n / 10) (Nat.digitChar (n % 10) :: ds) := rfl

/-- All characters produced by `Nat.toDigitsCore` at base 10 are decimal
digits, given a digit-only accumulator. -/
theorem toDigitsCore_digits :
    ∀ (fuel n : Nat) (ds : List Char), (∀ c ∈ ds, c.isDigit = true) →
      ∀ c ∈ Nat.toDigitsCore 10 fuel n ds, c.isDigit = true
  | 0, _, _, h => h
  | fuel + 1, n, ds, h => by
    have hd : (Nat.digitChar (n % 10)).isDigit = true :=
      digitChar_isDigit _ (Nat.mod_lt _ (by omega))
    have hacc : ∀ c ∈ Nat.digitChar (n % 10) :: ds, c.isDigit = true := by
      intro c hc
      rcases List.mem_cons.mp hc with h1 | h1
      · rw [h1]; exact hd
      · exact h c h1
    rw [toDigitsCore_succ]
    by_cases hz : n / 10 = 0
    · rw [if_pos hz]; exact hacc
    · rw [if_neg hz]; exact toDigitsCore_digits fuel (n / 10) _ hacc

/-- Every character of `Nat.toDigits 10 n` is a decimal digit. -/
theorem toDigits_digits (n : Nat) : ∀ c ∈ Nat.toDigits 10 n, c.isDigit = true :=
  toDigitsCore_digits (n + 1) n [] (by intro c hc; simp at hc)

/-- `Nat.toDigitsCore` prepends its output to the accumulator. -/
theorem toDigitsCore_shift :
    ∀ (fuel n : Nat) (ds : List Char),
      Nat.toDigitsCore 10 fuel n ds = Nat.toDigitsCore 10 fuel n [] ++ ds
  | 0, _, _ => by simp [Nat.toDigitsCore]
  | fuel + 1, n, ds => by
    rw [toDigitsCore_succ, toDigitsCore_succ]
    by_cases h : n / 10 = 0
    · simp [h]
    · rw [if_neg h, if_neg h]
      rw [toDigitsCore_shift fuel (n / 10) (Nat.digitChar (n % 10) :: ds),
        toDigitsCore_shift fuel (n / 10) [Nat.digitChar (n % 10)]]
      simp

/-- `Nat.toDigitsCore` does not depend on the fuel once it exceeds `n`. -/
theorem toDigitsCore_fuel_irrel :
    ∀ (f g n : Nat), n < f → n < g →
      Nat.toDigitsCore 10 f n [] = Nat.toDigitsCore 10 g n []
  | 0, _, _, hf, _ => absurd hf (by omega)
  | _ + 1, 0, _, _, hg => absurd hg (by omega)
  | f + 1, g + 1, n, hf, hg => by
    rw [toDigitsCore_succ, toDigitsCore_succ]
    by_cases h : n / 10 = 0
    · simp [h]
    · have h10 : 10 ≤ n := by
        by_contra hn
        exact h (Nat.div_eq_of_lt (by omega))
      have hlt : n / 10 < n := Nat.div_lt_self (by omega) (by omega)
      rw [if_neg h, if_neg h]
      rw [toDigitsCore_shift f (n / 10) [Nat.digitChar (n % 10)],
        toDigitsCore_shift g (n / 10) [Nat.digitChar (n % 10)]]
      rw [toDigitsCore_fuel_irrel f g (n / 10) (by omega) (by omega)]
termination_by f _ _ => f

/-- Numeric value of a digit character (proof helper). -/
def digitVal (c : Char) : Nat := c.toNat - Char.toNat '0'

/-- Decimal value of a digit string (proof helper). -/
def decodeDigits (cs : List Char) : Nat := cs.foldl (fun a c => 10 * a + digitVal c) 0

/-- `digitVal` inverts `Nat.digitChar` below 10. -/
theorem digitVal_digitChar : ∀ m < 10, digitVal (Nat.digitChar m) = m := by
  decide

/-- `decodeDigits` over an appended final digit. -/
theorem decodeDigits_append (xs : List Char) (c : Char) :
    decodeDigits (xs ++ [c]) = 10 * decodeDigits xs + digitVal c := by
  simp [decodeDigits, List.foldl_append]

/-- `decodeDigits` inverts decimal printing. -/
theorem decodeDigits_toDigits : ∀ n : Nat, decodeDigits (Nat.toDigits 10 n) = n := by
  intro n
  induction n using Nat.strong_induction_on with
  | _ n ih =>
    rw [show Nat.toDigits 10 n = Nat.toDigitsCore 10 (n + 1) n [] from rfl, toDigitsCore_succ]
    by_cases h : n / 10 = 0
    · have hn : n < 10 := (Nat.div_eq_zero_iff (by omega)).mp h
      rw [if_pos h]
      simp [decodeDigits, Nat.mod_eq_of_lt hn, digitVal_digitChar n hn]
    · have h10 : 10 ≤ n := by
        by_contra hc
        exact h (Nat.div_eq_of_lt (by omega))
      have hlt : n / 10 < n := Nat.div_lt_self (by omega) (by omega)
      rw [if_neg h]
      rw [toDigitsCore_shift n (n / 10) [Nat.digitChar (n % 10)]]
      rw [toDigitsCore_fuel_irrel n (n / 10 + 1) (n / 10) (by omega) (by omega)]
      rw [show Nat.toDigitsCore 10 (n / 10 + 1) (n / 10) [] = Nat.toDigits 10 (n / 10) from rfl]
      rw [decodeDigits_append, ih (n / 10) hlt,
        digitVal_digitChar (n % 10) (Nat.mod_lt _ (by omega))]
      have := Nat.div_add_mod n 10
      omega

/-- Decimal printing of `Nat` is injective. -/
theorem natToString_inj {m n : Nat} (h : toString m = toString n) : m = n := by
  have h2 : Nat.toDigits 10 m = Nat.toDigits 10 n := congrArg String.data h
  calc m = decodeDigits (Nat.toDigits 10 m) := (decodeDigits_toDigits m).symm
    _ = decodeDigits (Nat.toDigits 10 n) := by rw [h2]
    _ = n := decodeDigits_toDigits n

/-- Splitting at a non-digit marker: digit prefixes followed by the marker
determine both sides of the split. -/
theorem digits_marker_inj (m : Char) (hm : m.isDigit = false) :
    ∀ (x : List Char), (∀ c ∈ x, c.isDigit = true) →
    ∀ (y : List Char), (∀ c ∈ y, c.isDigit = true) →
    ∀ (u v : List Char), x ++ m :: u = y ++ m :: v → x = y ∧ u = v := by
  intro x
  induction x with
  | nil =>
    intro _ y hy u v h
    cases y with
    | nil => simpa using h
    | cons b ys =>
      exfalso
      simp only [List.nil_append, List.cons_append, List.cons.injEq] at h
      have hb := hy b (by simp)
      rw [← h.1] at hb
      rw [hm] at hb
      exact Bool.false_ne_true hb
  | cons a xs ih =>
    intro hx y hy u v h
    cases y with
    | nil =>
      exfalso
      simp only [List.cons_append, List.nil_append, List.cons.injEq] at h
      have ha := hx a (by simp)
      rw [h.1] at ha
      rw [hm] at ha
      exact Bool.false_ne_true ha
    | cons b ys =>
      simp only [List.cons_append, List.cons.injEq] at h
      obtain ⟨hab, htail⟩ := h
      obtain ⟨h1, h2⟩ := ih (fun c hc => hx c (by simp [hc])) ys
        (fun c hc => hy c (by simp [hc])) u v htail
      exact ⟨by rw [hab, h1], h2⟩

/-- A digit string after the separator `-r` determines both the prefix and the
digit string. -/
theorem append_sep_digits_inj {a1 a2 d1 d2 : List Char}
    (hd1 : ∀ c ∈ d1, c.isDigit = true) (hd2 : ∀ c ∈ d2, c.isDigit = true)
    (h : a1 ++ '-' :: 'r' :: d1 = a2 ++ '-' :: 'r' :: d2) : a1 = a2 ∧ d1 = d2 := by
  have hrev : d1.reverse ++ 'r' :: ('-' :: a1.reverse)
      = d2.reverse ++ 'r' :: ('-' :: a2.reverse) := by
    have h2 := congrArg List.reverse h
    simpa [List.reverse_append, List.append_assoc] using h2
  have hr : ('r' : Char).isDigit = false := by decide
  obtain ⟨h1, h2⟩ := digits_marker_inj 'r' hr d1.reverse
    (fun c hc => hd1 c (List.mem_reverse.mp hc)) d2.reverse
    (fun c hc => hd2 c (List.mem_reverse.mp hc)) _ _ hrev
  refine ⟨?_, ?_⟩
  · have h3 : a1.reverse = a2.reverse := by
      simpa using h2
    simpa using congrArg List.reverse h3
  · simpa using congrArg List.reverse h1

/-- `RoundBlanksOption.genId` determines the (event id, round) pair. -/
theorem roundBlanksGenId_inj {e1 e2 : String} {r1 r2 : Nat}
    (h : RoundBlanksOption.genId e1 r1 = RoundBlanksOption.genId e2 r2) :
    e1 = e2 ∧ r1 = r2 := by
  have hdata := congrArg String.data h
  simp only [RoundBlanksOption.genId, String.data_append, List.append_assoc] at hdata
  have hx := List.append_cancel_left hdata
  have hx2 : e1.data ++ '-' :: 'r' :: (toString r1).data
      = e2.data ++ '-' :: 'r' :: (toString r2).data := hx
  obtain ⟨h1, h2⟩ := append_sep_digits_inj
    (fun c hc => toDigits_digits r1 c hc) (fun c hc => toDigits_digits r2 c hc) hx2
  exact ⟨String.ext h1, natToString_inj (String.ext h2)⟩

/-- C9 (confirmed): option id generation is deterministic (a pure function of
the semantic target) and collision-free: distinct (event, round) pairs give
distinct round-blanks ids, and room names that are distinct after the space
replacement give distinct room-abbreviation ids. -/
theorem optionId_spec :
    (∀ (e1 : String) (r1 : Nat) (e2 : String) (r2 : Nat), (e1, r1) ≠ (e2, r2) →
        RoundBlanksOption.genId e1 r1 ≠ RoundBlanksOption.genId e2 r2)
    ∧ (∀ m1 m2 : String, replaceFirstSpace m1.data ≠ replaceFirstSpace m2.data →
        RoomOption.genId m1 ≠ RoomOption.genId m2) := by
  constructor
  · intro e1 r1 e2 r2 hne h
    obtain ⟨he, hr⟩ := roundBlanksGenId_inj h
    exact hne (by rw [he, hr])
  · intro m1 m2 hne h
    apply hne
    have hdata := congrArg String.data h
    simp only [RoomOption.genId, String.data_append] at hdata
    exact List.append_cancel_left hdata

/-- Witness for `optionId_spec` at concrete targets. -/
theorem optionId_spec_witness :
    (("333", 1) : String × Nat) ≠ ("333", 2)
    ∧ RoundBlanksOption.genId "333" 1 ≠ RoundBlanksOption.genId "333" 2
    ∧ replaceFirstSpace ("Red Room" : String).data
        ≠ replaceFirstSpace ("Blue Room" : String).data
    ∧ RoomOption.genId "Red Room" ≠ RoomOption.genId "Blue Room" :=
  ⟨by decide, optionId_spec.1 "333" 1 "333" 2 (by decide),
   by decide, optionId_spec.2 "Red Room" "Blue Room" (by decide)⟩

/-! ## Claim C10 -/

/-- C10 (confirmed): the cutoff queries return `null` for the multi-blind
event unconditionally — for every document and round — even when the
underlying document declares a cutoff for that round (`wcifMbf` does), so
multi-blind scorecard records (blank or competitor) never carry cutoff data. -/
theorem mbfCutoff_spec :
    (∀ (w : WCIF) (round : Nat), w.getCutoffCentisec "333mbf" round = none)
    ∧ (∀ (w : WCIF) (round : Nat), w.getCutoffAttempts "333mbf" round = none)
    ∧ (∀ (w : WCIF) (round : Nat),
        (SCData.roundBlankScData w "333mbf" round).cutoffCentisec = none
        ∧ (SCData.roundBlankScData w "333mbf" round).cutoffAttempts = none)
    ∧ (∀ (w : WCIF) (round actId registrantId : Nat),
        (SCData.competitorScData w "333mbf" round actId registrantId).cutoffCentisec = none
        ∧ (SCData.competitorScData w "333mbf" round actId registrantId).cutoffAttempts = none)
    ∧ ((wcifMbf.getRoundObj "333mbf" 1).bind (fun roundObj => roundObj.cutoff)
          = some { numberOfAttempts := 2, attemptResult := 42000 }
        ∧ wcifMbf.getCutoffCentisec "333mbf" 1 = none
        ∧ wcifMbf.getCutoffAttempts "333mbf" 1 = none) :=
  ⟨fun _ _ => rfl, fun _ _ => rfl, fun _ _ => ⟨rfl, rfl⟩, fun _ _ _ _ => ⟨rfl, rfl⟩,
    by decide⟩

end Scorecards
